import Mathlib

/-!
Verification of the discord-linker bot core logic.

The program keeps a `players` table (one row per game account) and exposes two
commands: `/link` (`handleLinkCommand`), which consumes a one-time link code and
binds a Discord user id to a player row, and `/resync` (`handleResyncCommand`),
which re-grants the configured Discord role from the persisted link.

The embedding below translates the two handlers into pure Lean functions over an
explicit store (list of rows), an environment record (database connectivity,
guild presence, the DISCORD_ROLE_ID configuration), and a gateway record (the
Discord-side role state).  SQL queries become list filters with the same
predicates; the `UPDATE ... WHERE id = ?` statement becomes a map over the list
that rewrites rows whose `id` matches.  The try/catch that wraps each handler
body is modelled by explicit error outcomes: any thrown error (a failing
`db.execute` or a failing `member.roles.add`) lands in the catch block, which
sends one generic error reply.
-/

namespace DiscordLinker

/-- A row of the `players` table (interface `Player` in the source):
`id VARCHAR(36) PRIMARY KEY, name VARCHAR(32) NOT NULL, discord_id VARCHAR(100) NULL,
link_code VARCHAR(8) NULL`. -/
structure Player where
  id : String
  name : String
  discord_id : Option String
  link_code : Option String
deriving Repr, DecidableEq

/-- The `players` table as a list of rows (query results preserve an order,
which the handlers rely on via `playerRows[0]`). -/
abbrev Store := List Player

/-- The ambient execution environment of one command invocation:
whether `this.db` is non-null, whether `db.execute` throws,
whether `interaction.guild` is non-null, and the `DISCORD_ROLE_ID`
environment variable (`none` models unset/empty, which is falsy in JS). -/
structure Env where
  dbConnected : Bool
  storeError : Bool
  guild : Bool
  roleId : Option String
deriving Repr, DecidableEq

/-- The Discord-side role state seen through the gateway:
`roleIds` are the role ids that `guild.roles.fetch` resolves (a role id not in
this list fetches as `null`); `members` lists the (userId, roleId) memberships
visible in `member.roles.cache`; `grantOk` is whether `member.roles.add`
succeeds (when false it throws, landing in the handler's catch block). -/
structure Gateway where
  roleIds : List String
  members : List (String × String)
  grantOk : Bool
deriving Repr, DecidableEq

/-- The distinct replies `handleLinkCommand` can send. `genericError` is the
catch-all reply of the surrounding try/catch ("リンク処理中にエラーが発生しました"),
sent for ANY thrown error, whether a store failure or a role-grant failure. -/
inductive LinkOutcome where
  | noDatabase
  | alreadyLinked
  | invalidCode
  | linked (playerName : String)
  | genericError
deriving Repr, DecidableEq

/-- The distinct replies `handleResyncCommand` can send. -/
inductive ResyncOutcome where
  | noDatabase
  | notLinked
  | roleConfigMissing
  | roleNotFound
  | alreadyCurrent
  | resynced (playerName : String)
  | genericError
deriving Repr, DecidableEq

/-- `SELECT * FROM players WHERE discord_id = ?`. -/
def selectByDiscordId (st : Store) (userId : String) : List Player :=
  st.filter (fun p => p.discord_id == some userId)

/-- `SELECT * FROM players WHERE link_code = ? AND discord_id IS NULL`. -/
def selectByLinkCode (st : Store) (linkCode : String) : List Player :=
  st.filter (fun p => p.link_code == some linkCode && p.discord_id == none)

/-- `UPDATE players SET discord_id = ?, link_code = NULL WHERE id = ?`.
Keyed by `id` only; NOT guarded on `discord_id IS NULL`. -/
def updatePlayerLink (st : Store) (userId pid : String) : Store :=
  st.map (fun p =>
    if p.id == pid then { p with discord_id := some userId, link_code := none } else p)

/-- The role-assignment block of `handleLinkCommand` (lines 141–151) together
with the success reply that follows it: if a guild context exists and
`DISCORD_ROLE_ID` is set, fetch the role; if it resolves, add it to the member
(a failing add throws into the catch block, producing the generic error reply);
in every non-throwing path the success reply mentioning the player's name is
sent. -/
def roleGrantAndReply (env : Env) (gw : Gateway) (userId playerName : String) :
    LinkOutcome × Gateway :=
  match env.guild, env.roleId with
  | true, some rid =>
    if gw.roleIds.contains rid then
      if gw.grantOk then
        (.linked playerName, { gw with members := (userId, rid) :: gw.members })
      else
        (.genericError, gw)
    else
      (.linked playerName, gw)
  | _, _ => (.linked playerName, gw)

/-- `handleLinkCommand`: check `this.db`; look up whether the requesting user is
already linked; look up an unlinked row holding the submitted code; commit the
link by id; then attempt the role grant and reply. Returns the reply sent and
the resulting store and gateway states. -/
def handleLinkCommand (env : Env) (gw : Gateway) (st : Store)
    (userId linkCode : String) : LinkOutcome × Store × Gateway :=
  if !env.dbConnected then (.noDatabase, st, gw)
  else if env.storeError then (.genericError, st, gw)
  else
    if (selectByDiscordId st userId).length > 0 then (.alreadyLinked, st, gw)
    else
      match selectByLinkCode st linkCode with
      | [] => (.invalidCode, st, gw)
      | player :: _ =>
        let r := roleGrantAndReply env gw userId player.name
        (r.1, updatePlayerLink st userId player.id, r.2)

/-- `handleResyncCommand`: check `this.db`; look up the requesting user's row;
check guild context and `DISCORD_ROLE_ID`; fetch the role; if the member
already holds it reply already-current, otherwise add it (a failing add throws
into the catch block). The store is only read, never written. -/
def handleResyncCommand (env : Env) (gw : Gateway) (st : Store)
    (userId : String) : ResyncOutcome × Store × Gateway :=
  if !env.dbConnected then (.noDatabase, st, gw)
  else if env.storeError then (.genericError, st, gw)
  else
    match selectByDiscordId st userId with
    | [] => (.notLinked, st, gw)
    | player :: _ =>
      match env.guild, env.roleId with
      | true, some rid =>
        if gw.roleIds.contains rid then
          if gw.members.contains (userId, rid) then (.alreadyCurrent, st, gw)
          else if gw.grantOk then
            (.resynced player.name, st, { gw with members := (userId, rid) :: gw.members })
          else (.genericError, st, gw)
        else (.roleNotFound, st, gw)
      | _, _ => (.roleConfigMissing, st, gw)

/-! ### Small-step model of `handleLinkCommand` for interleaved executions

Every `await this.db.execute(...)` is a suspension point: between two store
operations of one invocation, another invocation may run.  The program counter
below has one state per store/gateway operation of the handler; `linkStep`
performs exactly one operation against the shared state. -/

/-- Shared mutable state: the database and the Discord role state. -/
structure World where
  st : Store
  gw : Gateway
deriving Repr, DecidableEq

/-- Program counter of one in-flight `handleLinkCommand` invocation:
before the already-linked query, before the code query, before the UPDATE
(carrying the row selected by the code query), before the role grant, or
finished with a reply. -/
inductive LinkPC where
  | atQ1
  | atQ2
  | atUpdate (player : Player)
  | atGrant (player : Player)
  | finished (out : LinkOutcome)
deriving Repr, DecidableEq

/-- One atomic store/gateway operation of `handleLinkCommand`. -/
def linkStep (env : Env) (userId linkCode : String) (pc : LinkPC) (w : World) :
    LinkPC × World :=
  match pc with
  | .atQ1 =>
    if !env.dbConnected then (.finished .noDatabase, w)
    else if env.storeError then (.finished .genericError, w)
    else if (selectByDiscordId w.st userId).length > 0 then
      (.finished .alreadyLinked, w)
    else (.atQ2, w)
  | .atQ2 =>
    match selectByLinkCode w.st linkCode with
    | [] => (.finished .invalidCode, w)
    | player :: _ => (.atUpdate player, w)
  | .atUpdate player =>
    (.atGrant player, { w with st := updatePlayerLink w.st userId player.id })
  | .atGrant player =>
    let r := roleGrantAndReply env w.gw userId player.name
    (.finished r.1, { w with gw := r.2 })
  | .finished o => (.finished o, w)

/-- One in-flight invocation: its arguments and its program counter. -/
structure LinkThread where
  userId : String
  linkCode : String
  pc : LinkPC
deriving Repr, DecidableEq

/-- Run two concurrent `handleLinkCommand` invocations under an explicit
schedule: `true` steps the first thread, `false` the second. -/
def runSched (env : Env) (sched : List Bool) (t1 t2 : LinkThread) (w : World) :
    LinkThread × LinkThread × World :=
  match sched with
  | [] => (t1, t2, w)
  | b :: rest =>
    if b then
      let s := linkStep env t1.userId t1.linkCode t1.pc w
      runSched env rest { t1 with pc := s.1 } t2 s.2
    else
      let s := linkStep env t2.userId t2.linkCode t2.pc w
      runSched env rest t1 { t2 with pc := s.1 } s.2

/-! ### Store invariants -/

/-- The `id` column is a primary key: no two rows share an `id`. -/
def UniqueIds (st : Store) : Prop := (st.map Player.id).Nodup

/-- At most one row holds any given non-null `discord_id`. -/
def UniqueLinks (st : Store) : Prop :=
  ∀ uid : String, (selectByDiscordId st uid).length ≤ 1

/-- Stores reachable from `s` by SEQUENTIAL execution: each link or resync
command (run with an arbitrary environment and gateway state) is applied
atomically, whole, before the next begins. This deliberately excludes the
await-point interleavings modelled by `linkStep`/`runSched`, under which
concurrent commands overlap; the uniqueness invariant below holds for this
sequential relation but fails under interleaving. -/
inductive Reachable : Store → Store → Prop where
  | refl (s : Store) : Reachable s s
  | link (env : Env) (gw : Gateway) (userId linkCode : String) {s t : Store}
      (h : Reachable s t) :
      Reachable s (handleLinkCommand env gw t userId linkCode).2.1
  | resync (env : Env) (gw : Gateway) (userId : String) {s t : Store}
      (h : Reachable s t) :
      Reachable s (handleResyncCommand env gw t userId).2.1

/-! ### Helper lemmas -/

/-- A user with no row carrying their id queries to the empty list. -/
theorem selectByDiscordId_eq_nil {st : Store} {userId : String}
    (h : ∀ p ∈ st, p.discord_id ≠ some userId) :
    selectByDiscordId st userId = [] := by
  simp only [selectByDiscordId, List.filter_eq_nil_iff]
  intro p hp
  simpa using h p hp

/-- A code matching no unlinked row queries to the empty list. -/
theorem selectByLinkCode_eq_nil {st : Store} {linkCode : String}
    (h : ∀ p ∈ st, ¬(p.link_code = some linkCode ∧ p.discord_id = none)) :
    selectByLinkCode st linkCode = [] := by
  simp only [selectByLinkCode, List.filter_eq_nil_iff]
  intro p hp
  simpa using h p hp

/-- When the grant step cannot throw (no guild, no configured role id, or the
configured role does not resolve, or the add succeeds), the reply is the
success reply. -/
theorem roleGrantAndReply_fst {env : Env} {gw : Gateway} {userId playerName : String}
    (h : env.guild = false ∨ env.roleId = none ∨
      ∃ rid, env.roleId = some rid ∧
        (gw.roleIds.contains rid = false ∨ gw.grantOk = true)) :
    (roleGrantAndReply env gw userId playerName).1 = .linked playerName := by
  unfold roleGrantAndReply
  split
  · rename_i rid' hguild hrid'
    rcases h with h | h | ⟨rid, hrid, h⟩
    · rw [hguild] at h; exact Bool.noConfusion h
    · rw [hrid'] at h; exact Option.noConfusion h
    · rw [hrid'] at hrid
      injection hrid with e
      subst e
      rcases h with h | h
      · rw [h]; rfl
      · rw [h]; split <;> rfl
  · rfl

/-- When the role grant is skipped entirely (no guild, no configured role id,
or the role fetches as null), the gateway is untouched and the reply is the
success reply. -/
theorem roleGrantAndReply_skip {env : Env} {gw : Gateway} {userId playerName : String}
    (h : env.guild = false ∨ env.roleId = none ∨
      ∃ rid, env.roleId = some rid ∧ gw.roleIds.contains rid = false) :
    roleGrantAndReply env gw userId playerName = (.linked playerName, gw) := by
  unfold roleGrantAndReply
  split
  · rename_i rid' hguild hrid'
    rcases h with h | h | ⟨rid, hrid, h⟩
    · rw [hguild] at h; exact Bool.noConfusion h
    · rw [hrid'] at h; exact Option.noConfusion h
    · rw [hrid'] at hrid
      injection hrid with e
      subst e
      rw [h]; rfl
  · rfl

/-- Reduction of `handleLinkCommand` on the path that reaches the commit. -/
theorem handleLinkCommand_commit {env : Env} {gw : Gateway} {st : Store}
    {userId linkCode : String} {R : Player} {rest : List Player}
    (hdb : env.dbConnected = true) (herr : env.storeError = false)
    (hnolink : selectByDiscordId st userId = [])
    (hmatch : selectByLinkCode st linkCode = R :: rest) :
    handleLinkCommand env gw st userId linkCode =
      ((roleGrantAndReply env gw userId R.name).1,
        updatePlayerLink st userId R.id,
        (roleGrantAndReply env gw userId R.name).2) := by
  unfold handleLinkCommand
  rw [hdb, herr, hnolink, hmatch]
  rfl

/-- `handleResyncCommand` never writes to the store. -/
theorem handleResyncCommand_store_eq (env : Env) (gw : Gateway) (st : Store)
    (userId : String) : (handleResyncCommand env gw st userId).2.1 = st := by
  unfold handleResyncCommand
  (repeat' split) <;> rfl

/-! ### Concrete scenario data (used by witnesses and counterexamples) -/

/-- The spec's scenario row: unlinked, holding code "ABC123". -/
def steveRow : Player :=
  { id := "a1", name := "Steve", discord_id := none, link_code := some "ABC123" }

/-- The scenario row after a successful link by "disc#1". -/
def steveLinked : Player :=
  { id := "a1", name := "Steve", discord_id := some "disc#1", link_code := none }

/-- A second unlinked row holding a different valid code. -/
def bobRow : Player :=
  { id := "b2", name := "Bob", discord_id := none, link_code := some "XYZ789" }

/-- Connected database, no guild context, no `DISCORD_ROLE_ID`. -/
def envPlain : Env :=
  { dbConnected := true, storeError := false, guild := false, roleId := none }

/-- Connected database, guild context, `DISCORD_ROLE_ID` set to "R1". -/
def envRole : Env :=
  { dbConnected := true, storeError := false, guild := true, roleId := some "R1" }

/-- Connected database whose queries throw. -/
def envStoreErr : Env :=
  { dbConnected := true, storeError := true, guild := false, roleId := none }

/-- Gateway with no roles at all. -/
def gwEmpty : Gateway := { roleIds := [], members := [], grantOk := true }

/-- Gateway where role "R1" resolves, nobody holds it, grants succeed. -/
def gwRole : Gateway := { roleIds := ["R1"], members := [], grantOk := true }

/-- Gateway where "disc#1" already holds role "R1". -/
def gwRoleHeld : Gateway :=
  { roleIds := ["R1"], members := [("disc#1", "R1")], grantOk := true }

/-- Gateway where role "R1" resolves but `member.roles.add` throws. -/
def gwRoleFail : Gateway := { roleIds := ["R1"], members := [], grantOk := false }

/-! ### Claims C5, C6, C8, C9, C10 -/

/-- Claim C5: if some row's `discord_id` already equals the requesting user's
id, `handleLinkCommand` replies already-linked and changes neither the store
nor the gateway, for every submitted code — including a code that validly
matches a different unlinked row. -/
theorem c5_already_linked_guard (env : Env) (gw : Gateway) (st : Store)
    (userId linkCode : String) (p : Player)
    (hdb : env.dbConnected = true) (herr : env.storeError = false)
    (hp : p ∈ st) (hlink : p.discord_id = some userId) :
    handleLinkCommand env gw st userId linkCode = (.alreadyLinked, st, gw) := by
  have hmem : p ∈ selectByDiscordId st userId := by
    simp [selectByDiscordId, List.mem_filter, hp, hlink]
  have hpos : 0 < (selectByDiscordId st userId).length := List.length_pos_of_mem hmem
  unfold handleLinkCommand
  rw [hdb, herr, if_pos hpos]
  rfl

/-- Claim C5 witness: "disc#1" is linked to Steve's row and submits Bob's
valid unconsumed code; the reply is already-linked and nothing changes. -/
theorem c5_witness :
    handleLinkCommand envPlain gwEmpty [steveLinked, bobRow] "disc#1" "XYZ789"
      = (.alreadyLinked, [steveLinked, bobRow], gwEmpty) :=
  c5_already_linked_guard envPlain gwEmpty [steveLinked, bobRow] "disc#1" "XYZ789"
    steveLinked rfl rfl (List.mem_cons_self steveLinked [bobRow]) rfl

/-- Claim C6: if no row is linked to the requesting user and no row holds the
submitted code with a null `discord_id` (exact equality, no normalization),
`handleLinkCommand` replies invalid-code and changes nothing. -/
theorem c6_invalid_code (env : Env) (gw : Gateway) (st : Store)
    (userId linkCode : String)
    (hdb : env.dbConnected = true) (herr : env.storeError = false)
    (hnolink : ∀ p ∈ st, p.discord_id ≠ some userId)
    (hnocode : ∀ p ∈ st, ¬(p.link_code = some linkCode ∧ p.discord_id = none)) :
    handleLinkCommand env gw st userId linkCode = (.invalidCode, st, gw) := by
  unfold handleLinkCommand
  rw [hdb, herr, selectByDiscordId_eq_nil hnolink, selectByLinkCode_eq_nil hnocode]
  rfl

/-- Claim C6 witness: after Steve's row is linked its code is consumed
(`link_code` is null), so "disc#2" submitting "ABC123" gets invalid-code and
nothing changes. -/
theorem c6_witness :
    handleLinkCommand envPlain gwEmpty [steveLinked] "disc#2" "ABC123"
      = (.invalidCode, [steveLinked], gwEmpty) :=
  c6_invalid_code envPlain gwEmpty [steveLinked] "disc#2" "ABC123" rfl rfl
    (by decide) (by decide)

/-- Claim C8: if no row's `discord_id` equals the requesting user's id,
`handleResyncCommand` replies not-linked, attempts no grant, and leaves both
the store and the gateway unchanged. -/
theorem c8_reconcile_not_linked (env : Env) (gw : Gateway) (st : Store)
    (userId : String)
    (hdb : env.dbConnected = true) (herr : env.storeError = false)
    (hnolink : ∀ p ∈ st, p.discord_id ≠ some userId) :
    handleResyncCommand env gw st userId = (.notLinked, st, gw) := by
  unfold handleResyncCommand
  rw [hdb, herr, selectByDiscordId_eq_nil hnolink]
  rfl

/-- Claim C8 witness: `reconcile("disc#9")` on a store where only "disc#1" is
linked replies not-linked and changes nothing. -/
theorem c8_witness :
    handleResyncCommand envRole gwRole [steveLinked] "disc#9"
      = (.notLinked, [steveLinked], gwRole) :=
  c8_reconcile_not_linked envRole gwRole [steveLinked] "disc#9" rfl rfl (by decide)

/-- Claim C9: `handleResyncCommand` never writes to the store: for every
environment, gateway, store and requesting user, the store component of the
result equals the input store. -/
theorem c9_reconcile_store_frame (env : Env) (gw : Gateway) (st : Store)
    (userId : String) : (handleResyncCommand env gw st userId).2.1 = st :=
  handleResyncCommand_store_eq env gw st userId

/-- Claim C10: when a matching unlinked row is found but the grant step is
skipped — no guild context, or `DISCORD_ROLE_ID` unset, or the configured role
fetches as null — the commit still happens, the gateway is untouched, and the
reply is still the full success reply, with no distinct outcome signalling
that no grant was attempted. -/
theorem c10_grant_skipped_still_success (env : Env) (gw : Gateway) (st : Store)
    (userId linkCode : String) (R : Player) (rest : List Player)
    (hdb : env.dbConnected = true) (herr : env.storeError = false)
    (hnolink : ∀ p ∈ st, p.discord_id ≠ some userId)
    (hmatch : selectByLinkCode st linkCode = R :: rest)
    (hskip : env.guild = false ∨ env.roleId = none ∨
      ∃ rid, env.roleId = some rid ∧ gw.roleIds.contains rid = false) :
    handleLinkCommand env gw st userId linkCode =
      (.linked R.name, updatePlayerLink st userId R.id, gw) := by
  rw [handleLinkCommand_commit hdb herr (selectByDiscordId_eq_nil hnolink) hmatch,
    roleGrantAndReply_skip hskip]

/-- Claim C10 witness: `DISCORD_ROLE_ID` is set but the role fetches as null
(`gwEmpty` resolves no roles); the link commits and the reply is full
success. -/
theorem c10_witness :
    handleLinkCommand envRole gwEmpty [steveRow] "disc#1" "ABC123"
      = (.linked "Steve", [steveLinked], gwEmpty) := by
  rw [c10_grant_skipped_still_success envRole gwEmpty [steveRow] "disc#1" "ABC123"
    steveRow [] rfl rfl (by decide) (by decide)
    (Or.inr (Or.inr ⟨"R1", rfl, rfl⟩))]
  decide

/-! ### Claim C3: the race on a shared code -/

/-- First racing invocation: "disc#1" submits "ABC123". -/
def raceThread1 : LinkThread := { userId := "disc#1", linkCode := "ABC123", pc := .atQ1 }

/-- Second racing invocation: "disc#2" submits the same code. -/
def raceThread2 : LinkThread := { userId := "disc#2", linkCode := "ABC123", pc := .atQ1 }

/-- Schedule where both invocations complete both lookups before either
commits: t1 runs Q1 and Q2, then t2 runs Q1 and Q2, then t1 commits and
replies, then t2 commits and replies. -/
def raceSched : List Bool := [true, true, false, false, true, true, false, false]

/-- The interleaved execution of the two racing invocations on the scenario
store. -/
def raceRun : LinkThread × LinkThread × World :=
  runSched envPlain raceSched raceThread1 raceThread2 { st := [steveRow], gw := gwEmpty }

/-- Claim C3 counterexample: under the schedule where both invocations pass
both lookups before either commits, NEITHER invocation returns invalid-code —
the `UPDATE` is keyed by `id` only, with no guard on the row still being
unlinked and no affected-row check, so the loser does not observe a lost
race. This refutes "exactly one returns Linked and the other returns
InvalidCode". -/
theorem c3_counterexample :
    ¬(raceRun.1.pc = .finished .invalidCode ∨
      raceRun.2.1.pc = .finished .invalidCode) := by decide

/-- Claim C3 amended: the commit is an update keyed by the row's id with no
guard on the row still being unlinked and no affected-rows check; when two
concurrent `resolve_link` calls with the same valid unconsumed code both pass
their lookups before either commits, BOTH return full success, and the store
ends with the row linked to the identity whose update committed last (so the
row still carries exactly one identity, last-writer-wins). -/
theorem c3_both_linked_last_writer_wins :
    raceRun.1.pc = .finished (.linked "Steve") ∧
    raceRun.2.1.pc = .finished (.linked "Steve") ∧
    raceRun.2.2.st =
      [{ id := "a1", name := "Steve", discord_id := some "disc#2", link_code := none }] ∧
    raceRun.2.2.gw = gwEmpty := by decide

/-! ### Claim C4: role-grant failure after a committed link -/

/-- When the grant path is taken and `member.roles.add` throws, the handler's
catch block sends the generic error reply and the gateway is unchanged. -/
theorem roleGrantAndReply_fail {env : Env} {gw : Gateway}
    {userId playerName rid : String}
    (hguild : env.guild = true) (hrid : env.roleId = some rid)
    (hres : gw.roleIds.contains rid = true) (hfail : gw.grantOk = false) :
    roleGrantAndReply env gw userId playerName = (.genericError, gw) := by
  unfold roleGrantAndReply
  split
  · rename_i rid' hguild' hrid'
    rw [hrid'] at hrid
    injection hrid with e
    subst e
    rw [hres, hfail]
    rfl
  · rename_i hx
    exact (hx rid hguild hrid).elim

/-- Claim C4 counterexample: when the link commit succeeds but the role grant
fails, the reply is the same generic error reply that a pure store failure
produces — there is no distinct partial-success outcome. The two executions
compared: grant failure (store mutated, reply generic error) and a store
failure (store untouched, identical reply). -/
theorem c4_counterexample :
    (handleLinkCommand envRole gwRoleFail [steveRow] "disc#1" "ABC123").1
      = .genericError ∧
    (handleLinkCommand envRole gwRoleFail [steveRow] "disc#1" "ABC123").2.1
      = [steveLinked] ∧
    (handleLinkCommand envStoreErr gwRoleFail [steveRow] "disc#1" "ABC123").1
      = .genericError ∧
    (handleLinkCommand envStoreErr gwRoleFail [steveRow] "disc#1" "ABC123").2.1
      = [steveRow] := by decide

/-- Claim C4 amended: when the store mutation committing the link succeeds but
the subsequent role grant fails, the handler replies with the generic error
reply — the same outcome as a full failure, not a distinct partial-success
outcome — while the committed store mutation is kept (not rolled back). -/
theorem c4_grant_failure_generic (env : Env) (gw : Gateway) (st : Store)
    (userId linkCode rid : String) (R : Player) (rest : List Player)
    (hdb : env.dbConnected = true) (herr : env.storeError = false)
    (hnolink : ∀ p ∈ st, p.discord_id ≠ some userId)
    (hmatch : selectByLinkCode st linkCode = R :: rest)
    (hguild : env.guild = true) (hrid : env.roleId = some rid)
    (hres : gw.roleIds.contains rid = true) (hfail : gw.grantOk = false) :
    handleLinkCommand env gw st userId linkCode =
      (.genericError, updatePlayerLink st userId R.id, gw) := by
  rw [handleLinkCommand_commit hdb herr (selectByDiscordId_eq_nil hnolink) hmatch,
    roleGrantAndReply_fail hguild hrid hres hfail]

/-- Claim C4 witness: the role "R1" resolves but the add throws; the link is
committed and the reply is the generic error. -/
theorem c4_witness :
    handleLinkCommand envRole gwRoleFail [steveRow] "disc#1" "ABC123"
      = (.genericError, [steveLinked], gwRoleFail) := by
  rw [c4_grant_failure_generic envRole gwRoleFail [steveRow] "disc#1" "ABC123" "R1"
    steveRow [] rfl rfl (by decide) (by decide) rfl rfl rfl rfl]
  decide

/-! ### Claim C7: reconcile idempotence -/

/-- Reduction of `handleResyncCommand` once the requesting user's row is
found: what remains is the role-configuration check, the role fetch, the
cache check and the add. -/
theorem handleResyncCommand_linked {env : Env} {gw : Gateway} {st : Store}
    {userId : String} {P : Player} {rest : List Player}
    (hdb : env.dbConnected = true) (herr : env.storeError = false)
    (hlinked : selectByDiscordId st userId = P :: rest) :
    handleResyncCommand env gw st userId =
      (match env.guild, env.roleId with
       | true, some rid =>
         if gw.roleIds.contains rid = true then
           if gw.members.contains (userId, rid) = true then (.alreadyCurrent, st, gw)
           else if gw.grantOk = true then
             (.resynced P.name, st, { gw with members := (userId, rid) :: gw.members })
           else (.genericError, st, gw)
         else (.roleNotFound, st, gw)
       | _, _ => (.roleConfigMissing, st, gw)) := by
  unfold handleResyncCommand
  rw [hdb, herr, hlinked]
  rfl

/-- Resync on a linked user with resolvable role configuration who already
holds the role: already-current reply, nothing changes. -/
theorem handleResyncCommand_already {env : Env} {gw : Gateway} {st : Store}
    {userId rid : String} {P : Player} {rest : List Player}
    (hdb : env.dbConnected = true) (herr : env.storeError = false)
    (hlinked : selectByDiscordId st userId = P :: rest)
    (hguild : env.guild = true) (hrid : env.roleId = some rid)
    (hres : gw.roleIds.contains rid = true)
    (hmem : gw.members.contains (userId, rid) = true) :
    handleResyncCommand env gw st userId = (.alreadyCurrent, st, gw) := by
  rw [handleResyncCommand_linked hdb herr hlinked]
  split
  · rename_i rid' hguild' hrid'
    rw [hrid'] at hrid
    injection hrid with e
    subst e
    rw [hres, hmem]
    rfl
  · rename_i hx
    exact (hx rid hguild hrid).elim

/-- Resync on a linked user with resolvable role configuration who does not
hold the role, when the add succeeds: resynced reply, membership added. -/
theorem handleResyncCommand_grant {env : Env} {gw : Gateway} {st : Store}
    {userId rid : String} {P : Player} {rest : List Player}
    (hdb : env.dbConnected = true) (herr : env.storeError = false)
    (hlinked : selectByDiscordId st userId = P :: rest)
    (hguild : env.guild = true) (hrid : env.roleId = some rid)
    (hres : gw.roleIds.contains rid = true)
    (hmem : gw.members.contains (userId, rid) = false)
    (hok : gw.grantOk = true) :
    handleResyncCommand env gw st userId =
      (.resynced P.name, st, { gw with members := (userId, rid) :: gw.members }) := by
  rw [handleResyncCommand_linked hdb herr hlinked]
  split
  · rename_i rid' hguild' hrid'
    rw [hrid'] at hrid
    injection hrid with e
    subst e
    rw [hres, hmem, hok]
    rfl
  · rename_i hx
    exact (hx rid hguild hrid).elim

/-- Claim C7: for a requesting user linked in the store whose role
configuration is resolvable, (1) if the user already holds the role the
resync replies already-current and attempts no grant (store and gateway
unchanged); (2) consequently — grants succeeding, per the gateway contract —
a second resync run on the state produced by a first resync replies
already-current. -/
theorem c7_reconcile_idempotent (env : Env) (gw : Gateway) (st : Store)
    (userId rid : String) (P : Player) (rest : List Player)
    (hdb : env.dbConnected = true) (herr : env.storeError = false)
    (hlinked : selectByDiscordId st userId = P :: rest)
    (hguild : env.guild = true) (hrid : env.roleId = some rid)
    (hres : gw.roleIds.contains rid = true) :
    (gw.members.contains (userId, rid) = true →
      handleResyncCommand env gw st userId = (.alreadyCurrent, st, gw)) ∧
    (gw.grantOk = true →
      (handleResyncCommand env (handleResyncCommand env gw st userId).2.2
        (handleResyncCommand env gw st userId).2.1 userId).1 = .alreadyCurrent) := by
  constructor
  · intro hmem
    exact handleResyncCommand_already hdb herr hlinked hguild hrid hres hmem
  · intro hok
    cases hmem : gw.members.contains (userId, rid) with
    | true =>
      rw [handleResyncCommand_already hdb herr hlinked hguild hrid hres hmem]
      show (handleResyncCommand env gw st userId).1 = .alreadyCurrent
      rw [handleResyncCommand_already hdb herr hlinked hguild hrid hres hmem]
    | false =>
      rw [handleResyncCommand_grant hdb herr hlinked hguild hrid hres hmem hok]
      show (handleResyncCommand env
        { gw with members := (userId, rid) :: gw.members } st userId).1
          = .alreadyCurrent
      rw [handleResyncCommand_already hdb herr hlinked hguild hrid
        (show ({ gw with members := (userId, rid) :: gw.members } : Gateway).roleIds.contains
          rid = true from hres)
        (by simp)]

/-- Claim C7 witness: "disc#1" is linked; with role "R1" resolvable and held,
resync replies already-current; starting instead from the role not held, a
first resync grants it and the second replies already-current. -/
theorem c7_witness :
    handleResyncCommand envRole gwRoleHeld [steveLinked] "disc#1"
      = (.alreadyCurrent, [steveLinked], gwRoleHeld) ∧
    (handleResyncCommand envRole
      (handleResyncCommand envRole gwRole [steveLinked] "disc#1").2.2
      (handleResyncCommand envRole gwRole [steveLinked] "disc#1").2.1 "disc#1").1
        = .alreadyCurrent := by
  constructor
  · exact (c7_reconcile_idempotent envRole gwRoleHeld [steveLinked] "disc#1" "R1"
      steveLinked [] rfl rfl (by decide) rfl rfl rfl).1 rfl
  · exact (c7_reconcile_idempotent envRole gwRole [steveLinked] "disc#1" "R1"
      steveLinked [] rfl rfl (by decide) rfl rfl rfl).2 rfl

/-! ### List lemmas for the commit's footprint -/

/-- Zipping a list with its image under `f` pairs each element with its
image. -/
theorem zip_self_map {α β : Type} (l : List α) (f : α → β) :
    l.zip (l.map f) = l.map (fun a => (a, f a)) := by
  induction l with
  | nil => rfl
  | cons a l ih => simp [ih]

/-- Under a duplicate-free id column, at most one row carries any given id. -/
theorem countP_id_le_one : ∀ {st : Store}, (st.map Player.id).Nodup →
    ∀ pid : String, st.countP (fun p => p.id == pid) ≤ 1 := by
  intro st
  induction st with
  | nil => intro _ pid; simp
  | cons p st ih =>
    intro h pid
    rw [List.map_cons, List.nodup_cons] at h
    obtain ⟨hnm, hnd⟩ := h
    rw [List.countP_cons]
    by_cases hb : (p.id == pid) = true
    · have hpe : p.id = pid := by simpa using hb
      have h0 : st.countP (fun q => q.id == pid) = 0 := by
        rw [List.countP_eq_zero]
        intro q hq hqb
        have hqe : q.id = pid := by simpa using hqb
        exact hnm (by rw [hpe, ← hqe]; exact List.mem_map_of_mem Player.id hq)
      rw [h0, if_pos hb]
    · rw [if_neg hb]
      simpa using ih hnd pid

/-- The conditional update rewrites `discord_id` and `link_code` only; the id
column is untouched. -/
theorem updatePlayerLink_ids (st : Store) (userId pid : String) :
    (updatePlayerLink st userId pid).map Player.id = st.map Player.id := by
  unfold updatePlayerLink
  rw [List.map_map]
  apply List.map_congr_left
  intro p hp
  by_cases h : (p.id == pid) = true
  · simp [Function.comp, h]
  · simp [Function.comp, h]

/-- The commit preserves the uniqueness of non-null `discord_id` values,
because the requester was verified unlinked first (lookup-before-write) and
the id column is duplicate-free. -/
theorem updatePlayerLink_unique {st : Store} {userId pid : String}
    (hids : UniqueIds st) (hu : UniqueLinks st)
    (hnolink : selectByDiscordId st userId = []) :
    UniqueLinks (updatePlayerLink st userId pid) := by
  intro uid
  have hnone : ∀ p ∈ st, ¬((p.discord_id == some userId) = true) :=
    List.filter_eq_nil_iff.mp hnolink
  show (List.filter (fun p => p.discord_id == some uid)
    (updatePlayerLink st userId pid)).length ≤ 1
  rw [← List.countP_eq_length_filter]
  unfold updatePlayerLink
  rw [List.countP_map]
  by_cases huid : uid = userId
  · subst huid
    have hcong : st.countP ((fun p => p.discord_id == some uid) ∘ fun p =>
        if (p.id == pid) = true then
          { p with discord_id := some uid, link_code := none } else p)
        = st.countP (fun p => p.id == pid) := by
      apply List.countP_congr
      intro p hp
      dsimp only [Function.comp]
      by_cases h : (p.id == pid) = true
      · rw [if_pos h]
        exact iff_of_true (by simp) h
      · rw [if_neg h]
        exact iff_of_false (hnone p hp) h
    rw [hcong]
    exact countP_id_le_one hids pid
  · have hmono : st.countP ((fun p => p.discord_id == some uid) ∘ fun p =>
        if (p.id == pid) = true then
          { p with discord_id := some userId, link_code := none } else p)
        ≤ st.countP (fun p => p.discord_id == some uid) := by
      apply List.countP_mono_left
      intro p hp hc
      dsimp only [Function.comp] at hc
      by_cases h : (p.id == pid) = true
      · rw [if_pos h] at hc
        have : userId = uid := by simpa using hc
        exact absurd this.symm huid
      · rwa [if_neg h] at hc
    refine le_trans hmono ?_
    rw [List.countP_eq_length_filter]
    exact hu uid

/-- Case analysis on `handleLinkCommand`: either the store is returned
unchanged, or the requester was unlinked, a row matched the code, and the
store is that row's conditional update. -/
theorem handleLinkCommand_store_cases (env : Env) (gw : Gateway) (st : Store)
    (userId linkCode : String) :
    (handleLinkCommand env gw st userId linkCode).2.1 = st ∨
    ∃ R rest, selectByDiscordId st userId = [] ∧
      selectByLinkCode st linkCode = R :: rest ∧
      (handleLinkCommand env gw st userId linkCode).2.1 =
        updatePlayerLink st userId R.id := by
  generalize hres : (handleLinkCommand env gw st userId linkCode).2.1 = st'
  unfold handleLinkCommand at hres
  split at hres
  · exact Or.inl hres.symm
  split at hres
  · exact Or.inl hres.symm
  split at hres
  · exact Or.inl hres.symm
  rename_i hnpos
  split at hres
  · exact Or.inl hres.symm
  · rename_i player rest hmatch
    refine Or.inr ⟨player, rest, ?_, hmatch, hres.symm⟩
    exact List.length_eq_zero.mp (Nat.le_zero.mp (Nat.not_lt.mp hnpos))

/-- Both store invariants are preserved along every reachable sequence of
commands. -/
theorem reachable_preserves {s t : Store} (h : Reachable s t)
    (hids : UniqueIds s) (hu : UniqueLinks s) :
    UniqueIds t ∧ UniqueLinks t := by
  induction h with
  | refl s => exact ⟨hids, hu⟩
  | link env gw userId linkCode h ih =>
    obtain ⟨ih1, ih2⟩ := ih hids hu
    rcases handleLinkCommand_store_cases env gw _ userId linkCode with
      heq | ⟨R, rest, hnl, hm, heq⟩
    · rw [heq]; exact ⟨ih1, ih2⟩
    · rw [heq]
      constructor
      · show ((updatePlayerLink _ userId R.id).map Player.id).Nodup
        rw [updatePlayerLink_ids]
        exact ih1
      · exact updatePlayerLink_unique ih1 ih2 hnl
  | resync env gw userId h ih =>
    rw [handleResyncCommand_store_eq]
    exact ih hids hu

/-- A one-row store trivially satisfies the link-uniqueness invariant. -/
theorem uniqueLinks_singleton (p : Player) : UniqueLinks [p] := by
  intro uid
  exact List.length_filter_le _ _

/-! ### Claims C2 and C1 -/

/-- Claim C2: when no row is linked to the requesting user, the first row
matching the submitted code is R, the id column is duplicate-free, and the
grant step does not throw, `handleLinkCommand` replies full success naming R,
and the resulting store is R's row with `discord_id := userId` and
`link_code := none` set in the one update, every row with a different id
unchanged, the length unchanged, and at most one position of the store
mutated. The updated row keeps R's `id` and `name` fields. -/
theorem c2_successful_link (env : Env) (gw : Gateway) (st : Store)
    (userId linkCode : String) (R : Player) (rest : List Player)
    (hdb : env.dbConnected = true) (herr : env.storeError = false)
    (hnolink : ∀ p ∈ st, p.discord_id ≠ some userId)
    (hmatch : selectByLinkCode st linkCode = R :: rest)
    (hids : UniqueIds st)
    (hgrant : env.guild = false ∨ env.roleId = none ∨
      ∃ rid, env.roleId = some rid ∧
        (gw.roleIds.contains rid = false ∨ gw.grantOk = true)) :
    (handleLinkCommand env gw st userId linkCode).1 = .linked R.name ∧
    (handleLinkCommand env gw st userId linkCode).2.1 =
      updatePlayerLink st userId R.id ∧
    { R with discord_id := some userId, link_code := none }
      ∈ updatePlayerLink st userId R.id ∧
    (∀ p ∈ st, p.id ≠ R.id → p ∈ updatePlayerLink st userId R.id) ∧
    (updatePlayerLink st userId R.id).length = st.length ∧
    (st.zip (updatePlayerLink st userId R.id)).countP
      (fun q => !(q.1 == q.2)) ≤ 1 := by
  have hcommit := @handleLinkCommand_commit env gw st userId linkCode R rest
    hdb herr (selectByDiscordId_eq_nil hnolink) hmatch
  have hR : R ∈ st := by
    have hmem : R ∈ selectByLinkCode st linkCode := by
      rw [hmatch]; exact List.mem_cons_self _ _
    exact (List.mem_filter.mp hmem).1
  refine ⟨?_, ?_, ?_, ?_, ?_, ?_⟩
  · rw [hcommit]
    exact roleGrantAndReply_fst hgrant
  · rw [hcommit]
  · unfold updatePlayerLink
    refine List.mem_map.mpr ⟨R, hR, ?_⟩
    simp
  · intro p hp hne
    unfold updatePlayerLink
    refine List.mem_map.mpr ⟨p, hp, ?_⟩
    simp [hne]
  · exact List.length_map st _
  · rw [show st.zip (updatePlayerLink st userId R.id) = st.map (fun p =>
      (p, if (p.id == R.id) = true then
        { p with discord_id := some userId, link_code := none } else p))
      from zip_self_map st _]
    rw [List.countP_map]
    refine le_trans (List.countP_mono_left ?_) (countP_id_le_one hids R.id)
    intro p hp hc
    dsimp only [Function.comp] at hc
    by_contra hb
    rw [if_neg hb] at hc
    simp at hc

/-- Claim C2 witness: the spec scenario — Steve's row holds "ABC123";
`resolve_link("disc#1","ABC123")` replies full success and the store shows
`discord_id = "disc#1"`, `link_code = null`. -/
theorem c2_witness :
    (handleLinkCommand envPlain gwEmpty [steveRow] "disc#1" "ABC123").1
      = .linked "Steve" ∧
    (handleLinkCommand envPlain gwEmpty [steveRow] "disc#1" "ABC123").2.1
      = [steveLinked] := by
  have h := c2_successful_link envPlain gwEmpty [steveRow] "disc#1" "ABC123"
    steveRow [] rfl rfl (by decide) (by decide) (by simp [UniqueIds]) (Or.inl rfl)
  refine ⟨h.1, ?_⟩
  rw [h.2.1]
  decide

/-- First invocation of the duplicate-link race: "disc#1" submits Steve's
code. -/
def dupThread1 : LinkThread := { userId := "disc#1", linkCode := "ABC123", pc := .atQ1 }

/-- Second concurrent invocation by the SAME user: "disc#1" submits Bob's
code. -/
def dupThread2 : LinkThread := { userId := "disc#1", linkCode := "XYZ789", pc := .atQ1 }

/-- Interleaved execution of the two same-user invocations on a store with two
unlinked rows, under the schedule where both pass both lookups before either
commits. -/
def dupRun : LinkThread × LinkThread × World :=
  runSched envPlain raceSched dupThread1 dupThread2
    { st := [steveRow, bobRow], gw := gwEmpty }

/-- Claim C1 counterexample: under interleaved execution the uniqueness
invariant fails in the code. Two concurrent link commands by the same user
"disc#1", each holding a valid code for a DIFFERENT unlinked row, both pass
the already-linked lookup before either unguarded UPDATE commits; both
commits land on different rows, both invocations reply full success, and the
store reachable this way has TWO rows with `discord_id = "disc#1"`. -/
theorem c1_counterexample :
    dupRun.1.pc = .finished (.linked "Steve") ∧
    dupRun.2.1.pc = .finished (.linked "Bob") ∧
    (selectByDiscordId dupRun.2.2.st "disc#1").length = 2 ∧
    ¬UniqueLinks dupRun.2.2.st :=
  ⟨by decide, by decide, by decide, fun h => absurd (h "disc#1") (by decide)⟩

/-- Claim C1 amended: the lookup-before-write guard preserves the uniqueness
invariant only for SEQUENTIAL execution — starting from a store with a
duplicate-free id column in which at most one row carries any given non-null
`discord_id`, every store reachable by atomically-applied whole link and
resync commands still has at most one row carrying any given non-null
`discord_id`, because the requester's identity is looked up first and the
already-linked reply is terminal. Under the interleaved executions the spec's
concurrency model allows, the invariant fails (see the counterexample): two
same-user commands can both pass the lookup before either commits. -/
theorem c1_uniqueness_invariant (s t : Store)
    (hids : UniqueIds s) (hu : UniqueLinks s) (h : Reachable s t) :
    UniqueLinks t :=
  (reachable_preserves h hids hu).2

/-- Claim C1 witness: one link command on the scenario store keeps the
uniqueness invariant. -/
theorem c1_witness :
    UniqueLinks (handleLinkCommand envPlain gwEmpty [steveRow]
      "disc#1" "ABC123").2.1 :=
  c1_uniqueness_invariant [steveRow] _ (by simp [UniqueIds])
    (uniqueLinks_singleton steveRow)
    (Reachable.link envPlain gwEmpty "disc#1" "ABC123" (Reachable.refl [steveRow]))

end DiscordLinker
